import Mathlib

/-!
Shallow embedding of the rustysynth synthesizer core, with theorems checking
the natural-language specification against the code.

Modelling conventions:
* `i16`/`u8`/`i32` integers are modelled as `ℕ`/`ℤ`; fields of Rust type
  `i16` are held as their 16-bit two's-complement representatives
  (a natural number in `[0, 65536)`), so `-1 : i16` is the representative
  `65535`.  Bitwise operations (`&`, `|`, `<<`) act on the representative
  exactly as they act on the 16-bit pattern.
* `f32`/`f64` values are modelled over `ℚ` where every operation performed by
  the code is exact at the inputs considered (the MIDI timing computation),
  and over `ℝ` (exact real arithmetic) elsewhere.
* Fallible operations return `Option`; a Rust `panic!` arising from
  out-of-bounds slice indexing is modelled as an explicit `panicked` result.
-/

namespace RustySynth

/-! ## Channel (src/rustysynth/src/channel.rs) -/

/-- The `DataType` enum of channel.rs: which parameter-selection message
(RPN or NRPN) was most recently received. -/
inductive DataType where
  | None
  | Rpn
  | Nrpn
deriving DecidableEq

/-- Per-MIDI-channel controller state, from `struct Channel` in channel.rs.
The `i16` fields are stored as 16-bit two's-complement representatives. -/
structure Channel where
  preset_id : ℕ
  modulation : ℕ
  volume : ℕ
  pan : ℕ
  expression : ℕ
  hold_pedal : Bool
  reverb_send : ℕ
  chorus_send : ℕ
  rpn : ℕ
  pitch_bend_range : ℕ
  coarse_tune : ℕ
  fine_tune : ℕ
  pitch_bend : ℚ
  last_data_type : DataType
deriving DecidableEq

/-- The `Default` derive for `Channel`: all numeric fields zero. -/
def Channel.default : Channel :=
  ⟨0, 0, 0, 0, 0, false, 0, 0, 0, 0, 0, 0, 0, DataType.None⟩

/-- 16-bit two's-complement representative of an integer
(used where the code stores an `i16`). -/
def wrap16 (x : ℤ) : ℕ := (x % 65536).toNat

/-- The body of the generated `set_X_coarse` methods (macro `set_coarse_fine`
in channel.rs): `field = (field & 0x7F) | ((value as i16) << 7)`.
For `value ≤ 255` the shift does not overflow `i16`, so on representatives
this is exactly the bit operation below. -/
def setCoarse (field value : ℕ) : ℕ := (field &&& 0x7F) ||| (value <<< 7)

/-- The body of the generated `set_X_fine` methods:
`field = (((field as i32) & 0xFF80) | value) as i16`.  Sign-extending the
16-bit representative to `i32` and masking with `0xFF80 < 2^16` keeps exactly
the bits `7..15` of the representative, so on representatives this is the bit
operation below. -/
def setFine (field value : ℕ) : ℕ := (field &&& 0xFF80) ||| value

def Channel.set_bank (ch : Channel) (v : ℕ) : Channel :=
  { ch with preset_id := setCoarse ch.preset_id v }

def Channel.set_patch (ch : Channel) (v : ℕ) : Channel :=
  { ch with preset_id := setFine ch.preset_id v }

def Channel.set_modulation_coarse (ch : Channel) (v : ℕ) : Channel :=
  { ch with modulation := setCoarse ch.modulation v }

def Channel.set_modulation_fine (ch : Channel) (v : ℕ) : Channel :=
  { ch with modulation := setFine ch.modulation v }

def Channel.set_volume_coarse (ch : Channel) (v : ℕ) : Channel :=
  { ch with volume := setCoarse ch.volume v }

def Channel.set_volume_fine (ch : Channel) (v : ℕ) : Channel :=
  { ch with volume := setFine ch.volume v }

def Channel.set_pan_coarse (ch : Channel) (v : ℕ) : Channel :=
  { ch with pan := setCoarse ch.pan v }

def Channel.set_pan_fine (ch : Channel) (v : ℕ) : Channel :=
  { ch with pan := setFine ch.pan v }

def Channel.set_expression_coarse (ch : Channel) (v : ℕ) : Channel :=
  { ch with expression := setCoarse ch.expression v }

def Channel.set_expression_fine (ch : Channel) (v : ℕ) : Channel :=
  { ch with expression := setFine ch.expression v }

def Channel.set_hold_pedal (ch : Channel) (v : ℕ) : Channel :=
  { ch with hold_pedal := 64 ≤ v }

def Channel.set_reverb_send (ch : Channel) (v : ℕ) : Channel :=
  { ch with reverb_send := v }

def Channel.set_chorus_send (ch : Channel) (v : ℕ) : Channel :=
  { ch with chorus_send := v }

def Channel.set_rpn_coarse (ch : Channel) (v : ℕ) : Channel :=
  { ch with rpn := setCoarse ch.rpn v, last_data_type := DataType.Rpn }

def Channel.set_rpn_fine (ch : Channel) (v : ℕ) : Channel :=
  { ch with rpn := setFine ch.rpn v, last_data_type := DataType.Rpn }

def Channel.set_nrpn_coarse (ch : Channel) (_v : ℕ) : Channel :=
  { ch with last_data_type := DataType.Nrpn }

def Channel.set_nrpn_fine (ch : Channel) (_v : ℕ) : Channel :=
  { ch with last_data_type := DataType.Nrpn }

def Channel.set_pbr_coarse (ch : Channel) (v : ℕ) : Channel :=
  { ch with pitch_bend_range := setCoarse ch.pitch_bend_range v }

def Channel.set_pbr_fine (ch : Channel) (v : ℕ) : Channel :=
  { ch with pitch_bend_range := setFine ch.pitch_bend_range v }

def Channel.set_fine_tune_coarse (ch : Channel) (v : ℕ) : Channel :=
  { ch with fine_tune := setCoarse ch.fine_tune v }

def Channel.set_fine_tune_fine (ch : Channel) (v : ℕ) : Channel :=
  { ch with fine_tune := setFine ch.fine_tune v }

/-- `Channel::data_entry_coarse`: gated on `last_data_type == Rpn`;
RPN 0 edits pitch-bend range (coarse), RPN 1 fine-tune (coarse),
RPN 2 sets `coarse_tune = value as i16 - 64`. -/
def Channel.data_entry_coarse (ch : Channel) (v : ℕ) : Channel :=
  if ch.last_data_type ≠ DataType.Rpn then ch
  else if ch.rpn = 0 then ch.set_pbr_coarse v
  else if ch.rpn = 1 then ch.set_fine_tune_coarse v
  else if ch.rpn = 2 then { ch with coarse_tune := wrap16 ((v : ℤ) - 64) }
  else ch

/-- `Channel::data_entry_fine`: gated on `last_data_type == Rpn`;
RPN 0 edits pitch-bend range (fine), RPN 1 fine-tune (fine). -/
def Channel.data_entry_fine (ch : Channel) (v : ℕ) : Channel :=
  if ch.last_data_type ≠ DataType.Rpn then ch
  else if ch.rpn = 0 then ch.set_pbr_fine v
  else if ch.rpn = 1 then ch.set_fine_tune_fine v
  else ch

/-- `Channel::set_pitch_bend`: `pitch_bend = (1/8192)·(value − 8192)`
(exact in `f32` for 14-bit values). -/
def Channel.set_pitch_bend (ch : Channel) (v : ℕ) : Channel :=
  { ch with pitch_bend := (1 / 8192 : ℚ) * ((v : ℚ) - 8192) }

/-- `Channel::reset_all_controllers` from channel.rs. -/
def Channel.reset_all_controllers (ch : Channel) : Channel :=
  { ch with
    modulation := 0
    expression := 127 <<< 7
    hold_pedal := false
    rpn := wrap16 (-1)
    pitch_bend := 0 }

/-- `Channel::reset` from channel.rs. -/
def Channel.reset (ch : Channel) : Channel :=
  Channel.reset_all_controllers
    { ch with
      preset_id := 0
      volume := 100 <<< 7
      pan := 64 <<< 7
      reverb_send := 40
      chorus_send := 0
      pitch_bend_range := 2 <<< 7
      coarse_tune := 0
      fine_tune := 8192 }

def Channel.get_hold_pedal (ch : Channel) : Bool := ch.hold_pedal

/-! Core bit lemma for the coarse/fine round trip. -/

lemma testBit_of_le_127 {c : ℕ} (hc : c ≤ 127) {j : ℕ} (hj : 7 ≤ j) :
    c.testBit j = false := by
  apply Nat.testBit_lt_two_pow
  calc c ≤ 127 := hc
    _ < 2 ^ 7 := by norm_num
    _ ≤ 2 ^ j := Nat.pow_le_pow_right (by norm_num) hj

lemma setFine_setCoarse (x c f : ℕ) (hc : c ≤ 127) :
    setFine (setCoarse x c) f = (c <<< 7) ||| f := by
  unfold setCoarse setFine
  apply Nat.eq_of_testBit_eq
  intro i
  have h127 : (0x7F : ℕ) = 2 ^ 7 - 1 := rfl
  have hmask : (0xFF80 : ℕ) = (2 ^ 9 - 1) <<< 7 := rfl
  rw [h127, hmask]
  simp only [Nat.testBit_lor, Nat.testBit_land, Nat.testBit_shiftLeft,
    Nat.testBit_two_pow_sub_one]
  by_cases h7 : 7 ≤ i
  · by_cases h16 : i - 7 < 9
    · have hi7 : ¬ i < 7 := by omega
      simp [h7, h16, hi7]
    · have hcbit : c.testBit (i - 7) = false := testBit_of_le_127 hc (by omega)
      simp [h7, h16, hcbit]
  · have hi7 : i < 7 := by omega
    simp [h7, hi7]

/-- C7: after `Channel::reset_all_controllers`, modulation is 0, expression is
`127<<7`, the hold pedal is up, the RPN selector is −1 (16-bit representative
65535) and the pitch bend is 0, while every other channel field (preset id,
volume, pan, reverb send, chorus send, pitch-bend range, coarse tune, fine
tune, last data type) keeps the value it held before the call. -/
theorem reset_all_controllers_spec (ch : Channel) :
    (ch.reset_all_controllers).modulation = 0 ∧
    (ch.reset_all_controllers).expression = 127 <<< 7 ∧
    (ch.reset_all_controllers).hold_pedal = false ∧
    (ch.reset_all_controllers).rpn = wrap16 (-1) ∧
    (ch.reset_all_controllers).pitch_bend = 0 ∧
    (ch.reset_all_controllers).preset_id = ch.preset_id ∧
    (ch.reset_all_controllers).volume = ch.volume ∧
    (ch.reset_all_controllers).pan = ch.pan ∧
    (ch.reset_all_controllers).reverb_send = ch.reverb_send ∧
    (ch.reset_all_controllers).chorus_send = ch.chorus_send ∧
    (ch.reset_all_controllers).pitch_bend_range = ch.pitch_bend_range ∧
    (ch.reset_all_controllers).coarse_tune = ch.coarse_tune ∧
    (ch.reset_all_controllers).fine_tune = ch.fine_tune ∧
    (ch.reset_all_controllers).last_data_type = ch.last_data_type := by
  refine ⟨rfl, rfl, rfl, rfl, rfl, rfl, rfl, rfl, rfl, rfl, rfl, rfl, rfl, rfl⟩

/-! ## The NRPN data-entry gate (claim C8) -/

/-- A data-entry MIDI message (CC 6 coarse or CC 38 fine) with its 7-bit value. -/
inductive DataEntryOp where
  | coarse (v : ℕ)
  | fine (v : ℕ)

def applyDataEntry (ch : Channel) (op : DataEntryOp) : Channel :=
  match op with
  | DataEntryOp.coarse v => ch.data_entry_coarse v
  | DataEntryOp.fine v => ch.data_entry_fine v

def applyDataEntries (ch : Channel) (ops : List DataEntryOp) : Channel :=
  ops.foldl applyDataEntry ch

lemma applyDataEntries_nrpn (ch : Channel) (ops : List DataEntryOp)
    (h : ch.last_data_type = DataType.Nrpn) : applyDataEntries ch ops = ch := by
  induction ops with
  | nil => rfl
  | cons op rest ih =>
    have hstep : applyDataEntry ch op = ch := by
      cases op with
      | coarse v =>
        simp [applyDataEntry, Channel.data_entry_coarse, h]
      | fine v =>
        simp [applyDataEntry, Channel.data_entry_fine, h]
    simpa [applyDataEntries, hstep] using ih

/-- C8: once the most recent parameter selection is NRPN
(`set_nrpn_coarse`/`set_nrpn_fine` set `last_data_type = Nrpn` and data-entry
messages never change `last_data_type`), any sequence of
`data_entry_coarse`/`data_entry_fine` calls leaves the channel — in
particular its pitch-bend range, fine tune and coarse tune — unchanged. -/
theorem data_entry_after_nrpn_noop (ch : Channel) (v : ℕ) (ops : List DataEntryOp) :
    (ch.set_nrpn_coarse v).last_data_type = DataType.Nrpn ∧
    (ch.set_nrpn_fine v).last_data_type = DataType.Nrpn ∧
    (ch.last_data_type = DataType.Nrpn →
      applyDataEntries ch ops = ch ∧
      (applyDataEntries ch ops).pitch_bend_range = ch.pitch_bend_range ∧
      (applyDataEntries ch ops).fine_tune = ch.fine_tune ∧
      (applyDataEntries ch ops).coarse_tune = ch.coarse_tune) := by
  refine ⟨rfl, rfl, fun h => ?_⟩
  have := applyDataEntries_nrpn ch ops h
  exact ⟨this, by rw [this], by rw [this], by rw [this]⟩

/-- Witness for `data_entry_after_nrpn_noop` at a concrete channel whose last
selector was NRPN, with two subsequent data-entry messages. -/
theorem data_entry_after_nrpn_noop_witness :
    (Channel.default.set_nrpn_coarse 3).last_data_type = DataType.Nrpn ∧
    applyDataEntries { Channel.default with last_data_type := DataType.Nrpn }
      [DataEntryOp.coarse 5, DataEntryOp.fine 9] =
      { Channel.default with last_data_type := DataType.Nrpn } :=
  ⟨(data_entry_after_nrpn_noop Channel.default 3 []).1,
   ((data_entry_after_nrpn_noop
      { Channel.default with last_data_type := DataType.Nrpn } 3
      [DataEntryOp.coarse 5, DataEntryOp.fine 9]).2.2 rfl).1⟩

/-- C9: for every 14-bit channel controller (bank/patch, modulation, volume,
pan, expression, pitch-bend range, fine tune, RPN), writing the coarse part
`c` and then the fine part `f` (both in `[0,127]`) leaves the raw stored
14-bit value equal to `(c<<7)|f`, from any starting state. -/
theorem coarse_fine_round_trip (ch : Channel) (c f : ℕ)
    (hc : c ≤ 127) (_hf : f ≤ 127) :
    ((ch.set_bank c).set_patch f).preset_id = (c <<< 7) ||| f ∧
    ((ch.set_modulation_coarse c).set_modulation_fine f).modulation = (c <<< 7) ||| f ∧
    ((ch.set_volume_coarse c).set_volume_fine f).volume = (c <<< 7) ||| f ∧
    ((ch.set_pan_coarse c).set_pan_fine f).pan = (c <<< 7) ||| f ∧
    ((ch.set_expression_coarse c).set_expression_fine f).expression = (c <<< 7) ||| f ∧
    ((ch.set_pbr_coarse c).set_pbr_fine f).pitch_bend_range = (c <<< 7) ||| f ∧
    ((ch.set_fine_tune_coarse c).set_fine_tune_fine f).fine_tune = (c <<< 7) ||| f ∧
    ((ch.set_rpn_coarse c).set_rpn_fine f).rpn = (c <<< 7) ||| f := by
  refine ⟨?_, ?_, ?_, ?_, ?_, ?_, ?_, ?_⟩ <;>
    simp [Channel.set_bank, Channel.set_patch, Channel.set_modulation_coarse,
      Channel.set_modulation_fine, Channel.set_volume_coarse, Channel.set_volume_fine,
      Channel.set_pan_coarse, Channel.set_pan_fine, Channel.set_expression_coarse,
      Channel.set_expression_fine, Channel.set_pbr_coarse, Channel.set_pbr_fine,
      Channel.set_fine_tune_coarse, Channel.set_fine_tune_fine,
      Channel.set_rpn_coarse, Channel.set_rpn_fine,
      setFine_setCoarse _ _ _ hc]

/-- Witness for `coarse_fine_round_trip`: starting from a channel whose RPN
representative is 65535 (−1), coarse 5 then fine 9 stores `(5<<7)|9 = 649`. -/
theorem coarse_fine_round_trip_witness :
    (5 : ℕ) ≤ 127 ∧ (9 : ℕ) ≤ 127 ∧
    ((({ Channel.default with rpn := 65535 } : Channel).set_rpn_coarse 5).set_rpn_fine 9).rpn
      = (5 <<< 7) ||| 9 :=
  ⟨by decide, by decide,
    (coarse_fine_round_trip { Channel.default with rpn := 65535 } 5 9
      (by decide) (by decide)).2.2.2.2.2.2.2⟩

/-! ## MIDI file linearization (src/rustysynth-midi/src/midifile.rs and the
identical src/rustysynth/src/midifile.rs)

`MidiFile::new` turns an SMF into a flat list of `(time_seconds, channel,
message)` events.  The `f64` arithmetic is modelled over `ℚ`; at the concrete
inputs considered every `f64` operation performed by the code is exact
(all intermediate values are small dyadic/decimal fractions), so the `ℚ`
model agrees bit-for-bit with the code. -/

/-- A MIDI channel message (only what the timing logic needs to carry). -/
inductive MidlyMsg where
  | noteOn (key vel : ℕ)
  | noteOff (key : ℕ)
  | other
deriving DecidableEq

/-- One event of one SMF track: a delta time in ticks and its kind. -/
inductive TrackEventKind where
  | midi (channel : ℕ) (message : MidlyMsg)
  | tempoMeta (usPerBeat : ℕ)
  | otherKind
deriving DecidableEq

structure TrackEvent where
  delta : ℕ
  kind : TrackEventKind
deriving DecidableEq

/-- An absolute-time event, as produced by `MidiFile::new`. -/
structure MidiEvent where
  time : ℚ
  ch : ℕ
  msg : MidlyMsg
deriving DecidableEq

/-- A tempo change recorded from track 0: absolute time and µs per beat. -/
structure TempoChange where
  time : ℚ
  us_per_beat : ℚ
deriving DecidableEq

/-- The `while tempo_idx < len && changes[idx].time <= time` loop of
`MidiFile::new`: consume the recorded tempo changes whose time is at or
before the current time, updating `us_per_beat`.  Returns the remaining
changes and the updated tempo. -/
def skipTempoChanges : List TempoChange → ℚ → ℚ → List TempoChange × ℚ
  | [], _, us => ([], us)
  | c :: rest, time, us =>
    if c.time ≤ time then skipTempoChanges rest time c.us_per_beat
    else (c :: rest, us)

/-- The per-event loop of `MidiFile::new` for the FIRST track
(`first_track == true`): the tempo-application loop is skipped, and tempo
meta events update `us_per_beat` and are recorded (at the time already
advanced past the event's own delta).  Accumulators are kept reversed. -/
def firstTrackGo (tpb : ℚ) :
    List TrackEvent → ℚ → ℚ → List TempoChange → List MidiEvent →
    List MidiEvent × List TempoChange
  | [], _, _, changes, evts => (evts.reverse, changes.reverse)
  | e :: rest, time, us, changes, evts =>
    let delta_s := (e.delta : ℚ) / tpb * us / 1000000
    let time' := time + delta_s
    match e.kind with
    | TrackEventKind.tempoMeta t =>
        firstTrackGo tpb rest time' (t : ℚ) (⟨time', (t : ℚ)⟩ :: changes) evts
    | TrackEventKind.midi c m =>
        firstTrackGo tpb rest time' us changes (⟨time', c, m⟩ :: evts)
    | TrackEventKind.otherKind =>
        firstTrackGo tpb rest time' us changes evts

/-- The per-event loop of `MidiFile::new` for every LATER track
(`first_track == false`): before each event's delta is converted, the
recorded tempo changes with `change.time ≤ time` (the time BEFORE adding
this event's delta) are applied. -/
def otherTrackGo (tpb : ℚ) :
    List TrackEvent → ℚ → ℚ → List TempoChange → List MidiEvent → List MidiEvent
  | [], _, _, _, evts => evts.reverse
  | e :: rest, time, us, pending, evts =>
    let pu := skipTempoChanges pending time us
    let delta_s := (e.delta : ℚ) / tpb * pu.2 / 1000000
    let time' := time + delta_s
    match e.kind with
    | TrackEventKind.midi c m =>
        otherTrackGo tpb rest time' pu.2 pu.1 (⟨time', c, m⟩ :: evts)
    | _ =>
        otherTrackGo tpb rest time' pu.2 pu.1 evts

/-- Phase 1 of `MidiFile::new`: process each track in order.  A track is the
"first track" exactly when no per-track event list has been pushed yet
(track index 0, since a list is pushed unconditionally after each track).
Each track starts at time 0 with the default 500000 µs per beat. -/
def tracksGo (tpb : ℚ) :
    List (List TrackEvent) → List TempoChange → List (List MidiEvent) →
    List (List MidiEvent)
  | [], _, acc => acc.reverse
  | t :: rest, changes, acc =>
    if acc.isEmpty then
      let r := firstTrackGo tpb t 0 500000 [] []
      tracksGo tpb rest r.2 (r.1 :: acc)
    else
      tracksGo tpb rest changes (otherTrackGo tpb t 0 500000 changes [] :: acc)

/-- The merge step: index of the per-track queue whose front event has the
smallest time (Rust `Iterator::min_by` keeps the FIRST of equal minima). -/
def pickMinTrack (lists : List (List MidiEvent)) : Option ℕ :=
  (lists.enum.foldl
    (fun best p =>
      match p.2.head? with
      | none => best
      | some e =>
        match best with
        | none => some (p.1, e.time)
        | some b => if e.time < b.2 then some (p.1, e.time) else best)
    none).map Prod.fst

def popTrackAt (lists : List (List MidiEvent)) (i : ℕ) : List (List MidiEvent) :=
  lists.mapIdx (fun j l => if j = i then l.tail else l)

/-- Phase 2 of `MidiFile::new`: repeatedly pop the earliest front event.
The loop runs while some queue is nonempty; the total number of queued
events bounds the iteration count and is passed as fuel. -/
def mergeGo : ℕ → List (List MidiEvent) → List MidiEvent → List MidiEvent
  | 0, _, acc => acc.reverse
  | fuel + 1, lists, acc =>
    match pickMinTrack lists with
    | none => acc.reverse
    | some i =>
      match (lists.getD i []).head? with
      | none => acc.reverse
      | some e => mergeGo fuel (popTrackAt lists i) (e :: acc)

/-- `MidiFile::new` (timing core): given ticks-per-beat and the parsed
tracks, produce the time-sorted flat event list. -/
def midiFileNew (tpb : ℚ) (tracks : List (List TrackEvent)) : List MidiEvent :=
  let lists := tracksGo tpb tracks [] []
  mergeGo (lists.foldl (fun n l => n + l.length) 0) lists []

/-- Track 0 of the C1 scenario: tempo 120 BPM (500000 µs/beat) at tick 0,
then tempo 60 BPM (1000000 µs/beat) at tick 480. -/
def tempoTrack0 : List TrackEvent :=
  [⟨0, TrackEventKind.tempoMeta 500000⟩, ⟨480, TrackEventKind.tempoMeta 1000000⟩]

/-- Track 1 of the C1 scenario: a NoteOn at tick 960. -/
def tempoTrack1 : List TrackEvent :=
  [⟨960, TrackEventKind.midi 0 (MidlyMsg.noteOn 60 100)⟩]

/-- C1: on the two-track SMF with PPQ=480 whose track 0 sets 120 BPM at tick
0 and 60 BPM at tick 480 and whose track 1 has a NoteOn at tick 960,
`MidiFile::new` assigns the NoteOn the absolute time 1 second — not the
1.5 seconds the specification computes — because the recorded tempo changes
are applied to a later track only at that track's event boundaries, using
the time BEFORE the event's delta, so the change at 0.5 s never affects the
NoteOn's single 960-tick delta. -/
theorem midi_tempo_change_time :
    midiFileNew 480 [tempoTrack0, tempoTrack1] =
      [⟨1, 0, MidlyMsg.noteOn 60 100⟩] ∧ (1 : ℚ) ≠ 3 / 2 := by
  constructor
  · norm_num [midiFileNew, tracksGo, firstTrackGo, otherTrackGo, skipTempoChanges,
      mergeGo, pickMinTrack, popTrackAt, tempoTrack0, tempoTrack1, List.enum]
    rfl
  · norm_num

/-! ## SoundFont math (src/rustysynth/src/soundfont_math.rs)

`f32`/`f64` arithmetic is modelled by exact real arithmetic; `powf`, `log10`,
`exp`, `sin`, `cos` become their real counterparts. -/

noncomputable section

def SAMPLE_RATE : ℕ := 44100

def NON_AUDIBLE : ℝ := 1.0e-3

def LOG_NON_AUDIBLE : ℝ := -6.9077554

def timecents_to_seconds (x : ℝ) : ℝ := (2 : ℝ) ^ ((1 / 1200) * x)

def cents_to_hertz (x : ℝ) : ℝ := 8.176 * (2 : ℝ) ^ ((1 / 1200) * x)

def cents_to_multiplying_factor (x : ℝ) : ℝ := (2 : ℝ) ^ ((1 / 1200) * x)

def decibels_to_linear (x : ℝ) : ℝ := (10 : ℝ) ^ (0.05 * x)

def linear_to_decibels (x : ℝ) : ℝ := 20 * Real.logb 10 x

def key_number_to_multiplying_factor (cents key : ℤ) : ℝ :=
  timecents_to_seconds ((cents * (60 - key) : ℤ) : ℝ)

def exp_cutoff (x : ℝ) : ℝ := if x < LOG_NON_AUDIBLE then 0 else Real.exp x

/-! ## Envelope stages (src/rustysynth/src/lib.rs) -/

inductive EnvelopeStage where
  | DELAY
  | ATTACK
  | HOLD
  | DECAY
  | RELEASE
deriving DecidableEq

/-- `EnvelopeStage::get_priority` from lib.rs. -/
def EnvelopeStage.get_priority : EnvelopeStage → ℕ
  | EnvelopeStage.DELAY => 5
  | EnvelopeStage.ATTACK => 4
  | EnvelopeStage.HOLD => 3
  | EnvelopeStage.DECAY => 2
  | EnvelopeStage.RELEASE => 1

/-- The `while self.stage <= HOLD` advancement loop shared by both envelopes:
starting from `stage`, advance while the current time has passed the end time
of the stage (end times: attack start, hold start, decay start). -/
def advanceStage (stage : EnvelopeStage) (t aS hS dS : ℝ) : EnvelopeStage :=
  match stage with
  | EnvelopeStage.DELAY =>
    if t < aS then EnvelopeStage.DELAY
    else if t < hS then EnvelopeStage.ATTACK
    else if t < dS then EnvelopeStage.HOLD
    else EnvelopeStage.DECAY
  | EnvelopeStage.ATTACK =>
    if t < hS then EnvelopeStage.ATTACK
    else if t < dS then EnvelopeStage.HOLD
    else EnvelopeStage.DECAY
  | EnvelopeStage.HOLD =>
    if t < dS then EnvelopeStage.HOLD else EnvelopeStage.DECAY
  | EnvelopeStage.DECAY => EnvelopeStage.DECAY
  | EnvelopeStage.RELEASE => EnvelopeStage.RELEASE

/-! ## VolumeEnvelope (src/rustysynth/src/volume_envelope.rs) -/

structure VolumeEnvelope where
  attack_slope : ℝ
  decay_slope : ℝ
  release_slope : ℝ
  attack_start_time : ℝ
  hold_start_time : ℝ
  decay_start_time : ℝ
  release_start_time : ℝ
  sustain_level : ℝ
  release_level : ℝ
  stage : EnvelopeStage
  value : ℝ
  current_time : ℝ

def VolumeEnvelope.default : VolumeEnvelope :=
  ⟨0, 0, 0, 0, 0, 0, 0, 0, 0, EnvelopeStage.DELAY, 0, 0⟩

/-- `VolumeEnvelope::render_`: advance the stage, then recompute `value`;
the boolean is the audibility flag returned to the caller. -/
def VolumeEnvelope.renderStep (e : VolumeEnvelope) : VolumeEnvelope × Bool :=
  let stage := advanceStage e.stage e.current_time
    e.attack_start_time e.hold_start_time e.decay_start_time
  match stage with
  | EnvelopeStage.DELAY => ({ e with stage := stage, value := 0 }, true)
  | EnvelopeStage.ATTACK =>
    ({ e with
        stage := stage
        value := e.attack_slope * (e.current_time - e.attack_start_time) }, true)
  | EnvelopeStage.HOLD => ({ e with stage := stage, value := 1 }, true)
  | EnvelopeStage.DECAY =>
    let v := max (exp_cutoff (e.decay_slope * (e.current_time - e.decay_start_time)))
      e.sustain_level
    ({ e with stage := stage, value := v }, decide (NON_AUDIBLE < v))
  | EnvelopeStage.RELEASE =>
    let v := e.release_level *
      exp_cutoff (e.release_slope * (e.current_time - e.release_start_time))
    ({ e with stage := stage, value := v }, decide (NON_AUDIBLE < v))

/-- `VolumeEnvelope::start`. -/
def VolumeEnvelope.start (_e : VolumeEnvelope)
    (delay attack hold decay : ℝ) (sustain : ℝ) (release : ℝ) : VolumeEnvelope :=
  (VolumeEnvelope.renderStep
    { attack_slope := 1 / attack
      decay_slope := -9.226 / decay
      release_slope := -9.226 / release
      attack_start_time := delay
      hold_start_time := delay + attack
      decay_start_time := delay + attack + hold
      release_start_time := 0
      sustain_level := min (max sustain 0) 1
      release_level := 0
      stage := EnvelopeStage.DELAY
      value := 0
      current_time := 0 }).1

/-- `VolumeEnvelope::release`. -/
def VolumeEnvelope.release (e : VolumeEnvelope) : VolumeEnvelope :=
  { e with stage := EnvelopeStage.RELEASE
           release_start_time := e.current_time
           release_level := e.value }

def VolumeEnvelope.get_priority (e : VolumeEnvelope) : ℕ := e.stage.get_priority

/-! ## ModulationEnvelope (src/rustysynth/src/modulation_envelope.rs) -/

structure ModulationEnvelope where
  attack_slope : ℝ
  decay_slope : ℝ
  release_slope : ℝ
  attack_start_time : ℝ
  hold_start_time : ℝ
  decay_start_time : ℝ
  decay_end_time : ℝ
  release_end_time : ℝ
  sustain_level : ℝ
  release_level : ℝ
  processed_sample_count : ℕ
  stage : EnvelopeStage
  value : ℝ

def ModulationEnvelope.default : ModulationEnvelope :=
  ⟨0, 0, 0, 0, 0, 0, 0, 0, 0, 0, 0, EnvelopeStage.DELAY, 0⟩

/-- `ModulationEnvelope::process`. -/
def ModulationEnvelope.process (e : ModulationEnvelope) (sample_count : ℕ) :
    ModulationEnvelope × Bool :=
  let count := e.processed_sample_count + sample_count
  let t : ℝ := (count : ℝ) / (SAMPLE_RATE : ℝ)
  let stage := advanceStage e.stage t
    e.attack_start_time e.hold_start_time e.decay_start_time
  let e' := { e with processed_sample_count := count, stage := stage }
  match stage with
  | EnvelopeStage.DELAY => ({ e' with value := 0 }, true)
  | EnvelopeStage.ATTACK =>
    ({ e' with value := e.attack_slope * (t - e.attack_start_time) }, true)
  | EnvelopeStage.HOLD => ({ e' with value := 1 }, true)
  | EnvelopeStage.DECAY =>
    let v := max (e.decay_slope * (e.decay_end_time - t)) e.sustain_level
    ({ e' with value := v }, decide (NON_AUDIBLE < v))
  | EnvelopeStage.RELEASE =>
    let v := max (e.release_level * e.release_slope * (e.release_end_time - t)) 0
    ({ e' with value := v }, decide (NON_AUDIBLE < v))

/-- `ModulationEnvelope::start`. -/
def ModulationEnvelope.start (_e : ModulationEnvelope)
    (delay attack hold decay sustain release : ℝ) : ModulationEnvelope :=
  (ModulationEnvelope.process
    { attack_slope := 1 / attack
      decay_slope := 1 / decay
      release_slope := 1 / release
      attack_start_time := delay
      hold_start_time := delay + attack
      decay_start_time := delay + attack + hold
      decay_end_time := delay + attack + hold + decay
      release_end_time := release
      sustain_level := min (max sustain 0) 1
      release_level := 0
      processed_sample_count := 0
      stage := EnvelopeStage.DELAY
      value := 0 } 0).1

/-- `ModulationEnvelope::release`. -/
def ModulationEnvelope.release (e : ModulationEnvelope) : ModulationEnvelope :=
  { e with stage := EnvelopeStage.RELEASE
           release_end_time := e.release_end_time +
             (e.processed_sample_count : ℝ) / (SAMPLE_RATE : ℝ)
           release_level := e.value }

/-! ## LFO (src/rustysynth/src/lfo.rs) -/

structure Lfo where
  active : Bool
  delay : ℝ
  period : ℝ
  current_time : ℝ
  value : ℝ

def Lfo.default : Lfo := ⟨false, 0, 0, 0, 0⟩

/-- `Lfo::start`: frequencies at or below 1e-3 deactivate the LFO (its other
fields keep their previous values, as in the Rust `else` branch). -/
def Lfo.start (l : Lfo) (delay frequency : ℝ) : Lfo :=
  if (1.0e-3 : ℝ) < frequency then
    { active := true, delay := delay, period := 1 / frequency,
      current_time := 0, value := 0 }
  else
    { l with active := false, value := 0 }

/-! ## BiQuadFilter (src/rustysynth/src/bi_quad_filter.rs) -/

structure BiQuadFilter where
  active : Bool
  a0 : ℝ
  a1 : ℝ
  a2 : ℝ
  a3 : ℝ
  a4 : ℝ
  x1 : ℝ
  x2 : ℝ
  y1 : ℝ
  y2 : ℝ

def BiQuadFilter.default : BiQuadFilter := ⟨false, 0, 0, 0, 0, 0, 0, 0, 0, 0⟩

def RESONANCE_PEAK_OFFSET : ℝ := 1 - 1 / Real.sqrt 2

def BiQuadFilter.clear_buffer (f : BiQuadFilter) : BiQuadFilter :=
  { f with x1 := 0, x2 := 0, y1 := 0, y2 := 0 }

/-- `BiQuadFilter::set_coefficients`: store the normalized coefficients. -/
def BiQuadFilter.set_coefficients (f : BiQuadFilter)
    (a0' a1' a2' b0 b1 b2 : ℝ) : BiQuadFilter :=
  { f with a0 := b0 / a0', a1 := b1 / a0', a2 := b2 / a0',
           a3 := a1' / a0', a4 := a2' / a0' }

/-- `BiQuadFilter::set_low_pass_filter`. -/
def BiQuadFilter.set_low_pass_filter (f : BiQuadFilter)
    (cutoff_frequency resonance : ℝ) : BiQuadFilter :=
  let sample_rate : ℝ := (SAMPLE_RATE : ℝ)
  if cutoff_frequency < 0.499 * sample_rate then
    let q := resonance - RESONANCE_PEAK_OFFSET / (1 + 6 * (resonance - 1))
    let w := 2 * Real.pi * cutoff_frequency / sample_rate
    let cosw := Real.cos w
    let alpha := Real.sin w / (2 * q)
    let b0 := (1 - cosw) / 2
    let b1 := 1 - cosw
    let b2 := (1 - cosw) / 2
    let a0' := 1 + alpha
    let a1' := -2 * cosw
    let a2' := 1 - alpha
    BiQuadFilter.set_coefficients { f with active := true } a0' a1' a2' b0 b1 b2
  else
    { f with active := false }

/-! ## Loop mode and sample views (src/rustysynth/src/lib.rs and
src/rustysynth/src/oscillator.rs) -/

inductive LoopMode where
  | NoLoop
  | Continuous
  | LoopUntilNoteOff
deriving DecidableEq

/-- `View<i16>`: a window `[start, end)` into the shared wave-data pool. -/
structure View where
  data : List ℤ
  start : ℕ
  end_ : ℕ
deriving DecidableEq

/-- `View::len`. -/
def viewLen (v : View) : ℕ := v.end_ - v.start

/-- `View::index`: `&self.data[self.start + index]` — bounded only by the
underlying pool, not by the view's `end`; `none` models the panic of an
out-of-bounds slice access. -/
def viewIndex? (v : View) (index : ℕ) : Option ℤ := v.data.get? (v.start + index)

/-! ## Oscillator (src/rustysynth/src/oscillator.rs) -/

def FRAC_BITS : ℕ := 24

def FRAC_UNIT : ℤ := 2 ^ FRAC_BITS

def FP_TO_SAMPLE : ℝ := 1 / ((32768 : ℝ) * (FRAC_UNIT : ℝ))

structure Oscillator where
  data : Option View
  loop_mode : LoopMode
  sample_sample_rate : ℤ
  start_loop : ℤ
  end_loop : ℤ
  root_key : ℤ
  tune : ℝ
  rate_scale : ℝ
  looping : Bool
  position_fp : ℤ

def Oscillator.default : Oscillator :=
  ⟨none, LoopMode.NoLoop, 0, 0, 0, 0, 0, 0, false, 0⟩

/-- `Oscillator::start` (`rate_scale` is the source's `sample_rate_ratio`,
the sample rate of the sample divided by the engine rate). -/
def Oscillator.start (_o : Oscillator) (data : View) (loop_mode : LoopMode)
    (sample_rate start_loop end_loop root_key fine_tune : ℤ) : Oscillator :=
  { data := some data
    loop_mode := loop_mode
    sample_sample_rate := sample_rate
    start_loop := start_loop
    end_loop := end_loop
    root_key := root_key
    tune := 0.01 * (fine_tune : ℝ)
    rate_scale := (sample_rate : ℝ) / (SAMPLE_RATE : ℝ)
    looping := loop_mode ≠ LoopMode.NoLoop
    position_fp := 0 }

/-- `Oscillator::release`. -/
def Oscillator.release (o : Oscillator) : Oscillator :=
  if o.loop_mode = LoopMode.LoopUntilNoteOff then { o with looping := false } else o

/-- Result of one `Oscillator::render` call: the voice finished (`None` in
Rust), the process panicked on an out-of-bounds pool access, or a sample
value together with the advanced oscillator state. -/
inductive OscRender where
  | finished
  | panicked
  | sample (value : ℝ) (next : Oscillator)

/-- `Oscillator::render`.  The `i64 >> 24` arithmetic shift is `fdiv` by
`2^24` and `& 0xFF_FFFF` is `emod`; the `as usize` cast of a negative index
yields a huge value, which in the non-looping branch satisfies the
`index >= data.len()` check (so the call returns `None`) and in the looping
branch indexes far past any real pool (modelled as a panic). -/
def Oscillator.render (osc : Oscillator) (pitch : ℝ) : OscRender :=
  match osc.data with
  | none => OscRender.finished
  | some data =>
    let pitch_change := pitch - (osc.root_key : ℝ) + osc.tune
    let pitch_ratio := osc.rate_scale * (2 : ℝ) ^ (pitch_change / 12)
    let pitch_ratio_fp : ℤ := ⌊(FRAC_UNIT : ℝ) * pitch_ratio⌋
    if osc.looping then
      let loop_length : ℤ := osc.end_loop - osc.start_loop
      let pos := if osc.end_loop * FRAC_UNIT ≤ osc.position_fp then
          osc.position_fp - loop_length * FRAC_UNIT
        else osc.position_fp
      let index1 : ℤ := Int.fdiv pos FRAC_UNIT
      let index2 : ℤ :=
        if osc.end_loop ≤ index1 + 1 then index1 + 1 - loop_length else index1 + 1
      if index1 < 0 ∨ index2 < 0 then OscRender.panicked
      else
        match viewIndex? data index1.toNat, viewIndex? data index2.toNat with
        | some x1, some x2 =>
          let a_fp := pos % FRAC_UNIT
          OscRender.sample
            (FP_TO_SAMPLE * ((x1 * FRAC_UNIT + a_fp * (x2 - x1) : ℤ) : ℝ))
            { osc with position_fp := pos + pitch_ratio_fp }
        | _, _ => OscRender.panicked
    else
      let index : ℤ := Int.fdiv osc.position_fp FRAC_UNIT
      if index < 0 ∨ (viewLen data : ℤ) ≤ index then OscRender.finished
      else
        match viewIndex? data index.toNat, viewIndex? data (index.toNat + 1) with
        | some x1, some x2 =>
          let a_fp := osc.position_fp % FRAC_UNIT
          OscRender.sample
            (FP_TO_SAMPLE * ((x1 * FRAC_UNIT + a_fp * (x2 - x1) : ℤ) : ℝ))
            { osc with position_fp := osc.position_fp + pitch_ratio_fp }
        | _, _ => OscRender.panicked

/-! ## Regions (the `Sound` trait of src/rustysynth/src/synthesizer.rs)

A `Region` value is the effective parameter set a voice reads through the
`Sound` trait: each trait getter becomes a field holding the value the
getter would return (region_pair.rs computes these from the summed
generator arrays).  `waveData` is the `View` of the wave-data pool carried
by the `RegionPair` of src/rustysynth-soundfont/src/lib.rs. -/

structure Region where
  sample_sample_rate : ℤ
  sample_start : ℤ
  sample_end : ℤ
  sample_start_loop : ℤ
  sample_end_loop : ℤ
  modulation_lfo_to_pitch : ℤ
  vibrato_lfo_to_pitch : ℤ
  modulation_envelope_to_pitch : ℤ
  initial_filter_cutoff_frequency : ℝ
  initial_filter_q : ℝ
  modulation_lfo_to_filter_cutoff_frequency : ℤ
  modulation_envelope_to_filter_cutoff_frequency : ℤ
  modulation_lfo_to_volume : ℝ
  chorus_effects_send : ℝ
  reverb_effects_send : ℝ
  pan : ℝ
  delay_modulation_lfo : ℝ
  frequency_modulation_lfo : ℝ
  delay_vibrato_lfo : ℝ
  frequency_vibrato_lfo : ℝ
  delay_modulation_envelope : ℝ
  attack_modulation_envelope : ℝ
  hold_modulation_envelope : ℝ
  decay_modulation_envelope : ℝ
  sustain_modulation_envelope : ℝ
  release_modulation_envelope : ℝ
  key_number_to_modulation_envelope_hold : ℤ
  key_number_to_modulation_envelope_decay : ℤ
  delay_volume_envelope : ℝ
  attack_volume_envelope : ℝ
  hold_volume_envelope : ℝ
  decay_volume_envelope : ℝ
  sustain_volume_envelope : ℝ
  release_volume_envelope : ℝ
  key_number_to_volume_envelope_hold : ℤ
  key_number_to_volume_envelope_decay : ℤ
  initial_attenuation : ℝ
  coarse_tune : ℤ
  fine_tune : ℤ
  sample_modes : LoopMode
  scale_tuning : ℤ
  exclusive_class : ℤ
  root_key : ℤ
  waveData : View

/-- A region whose every parameter is zero (empty wave view, no loop). -/
def regionBase : Region :=
  { sample_sample_rate := 0, sample_start := 0, sample_end := 0
    sample_start_loop := 0, sample_end_loop := 0
    modulation_lfo_to_pitch := 0, vibrato_lfo_to_pitch := 0
    modulation_envelope_to_pitch := 0
    initial_filter_cutoff_frequency := 0, initial_filter_q := 0
    modulation_lfo_to_filter_cutoff_frequency := 0
    modulation_envelope_to_filter_cutoff_frequency := 0
    modulation_lfo_to_volume := 0
    chorus_effects_send := 0, reverb_effects_send := 0, pan := 0
    delay_modulation_lfo := 0, frequency_modulation_lfo := 0
    delay_vibrato_lfo := 0, frequency_vibrato_lfo := 0
    delay_modulation_envelope := 0, attack_modulation_envelope := 0
    hold_modulation_envelope := 0, decay_modulation_envelope := 0
    sustain_modulation_envelope := 0, release_modulation_envelope := 0
    key_number_to_modulation_envelope_hold := 0
    key_number_to_modulation_envelope_decay := 0
    delay_volume_envelope := 0, attack_volume_envelope := 0
    hold_volume_envelope := 0, decay_volume_envelope := 0
    sustain_volume_envelope := 0, release_volume_envelope := 0
    key_number_to_volume_envelope_hold := 0
    key_number_to_volume_envelope_decay := 0
    initial_attenuation := 0, coarse_tune := 0, fine_tune := 0
    sample_modes := LoopMode.NoLoop, scale_tuning := 0
    exclusive_class := 0, root_key := 0
    waveData := ⟨[], 0, 0⟩ }

/-! ## Voice (src/rustysynth/src/voice.rs) -/

inductive VoiceState where
  | Playing
  | ReleaseRequested
  | Released
deriving DecidableEq

/-- `crate::BLOCK_SIZE` is referenced by voice.rs but not defined in the
snapshot's lib.rs; its value never matters below (the rendered block's
contents are not part of any claim). -/
def BLOCK_SIZE : ℕ := 64

structure Voice where
  vol_env : VolumeEnvelope
  mod_env : ModulationEnvelope
  vib_lfo : Lfo
  mod_lfo : Lfo
  oscillator : Oscillator
  filter : BiQuadFilter
  block : List ℝ
  previous_mix_gain_left : ℝ
  previous_mix_gain_right : ℝ
  current_mix_gain_left : ℝ
  current_mix_gain_right : ℝ
  previous_reverb_send : ℝ
  previous_chorus_send : ℝ
  current_reverb_send : ℝ
  current_chorus_send : ℝ
  channel : ℤ
  key : ℤ
  velocity : ℤ
  note_gain : ℝ
  cutoff : ℝ
  resonance : ℝ
  vib_lfo_to_pitch : ℝ
  mod_lfo_to_pitch : ℝ
  mod_env_to_pitch : ℝ
  mod_lfo_to_cutoff : ℤ
  mod_env_to_cutoff : ℤ
  dynamic_cutoff : Bool
  mod_lfo_to_volume : ℝ
  dynamic_volume : Bool
  instrument_pan : ℝ
  instrument_reverb : ℝ
  instrument_chorus : ℝ
  smoothed_cutoff : ℝ
  voice_state : VoiceState
  voice_length : ℕ

/-- The `Default` impl for `Voice`. -/
def Voice.default : Voice :=
  { vol_env := VolumeEnvelope.default
    mod_env := ModulationEnvelope.default
    vib_lfo := Lfo.default
    mod_lfo := Lfo.default
    oscillator := Oscillator.default
    filter := BiQuadFilter.default
    block := List.replicate BLOCK_SIZE 0
    previous_mix_gain_left := 0, previous_mix_gain_right := 0
    current_mix_gain_left := 0, current_mix_gain_right := 0
    previous_reverb_send := 0, previous_chorus_send := 0
    current_reverb_send := 0, current_chorus_send := 0
    channel := 0, key := 0, velocity := 0
    note_gain := 0, cutoff := 0, resonance := 0
    vib_lfo_to_pitch := 0, mod_lfo_to_pitch := 0, mod_env_to_pitch := 0
    mod_lfo_to_cutoff := 0, mod_env_to_cutoff := 0, dynamic_cutoff := false
    mod_lfo_to_volume := 0, dynamic_volume := false
    instrument_pan := 0, instrument_reverb := 0, instrument_chorus := 0
    smoothed_cutoff := 0
    voice_state := VoiceState.Playing
    voice_length := 0 }

/-- `Voice::start` from voice.rs.  Notes on the snapshot being mid-refactor:
resonance, the LFO/envelope pitch and cutoff scales, instrument pan and
chorus are hard-coded constants there ("XXX remove constant fields"); the
modulation-envelope sustain argument (dropped from the call in voice.rs but
required by modulation_envelope.rs) is the `1 − sustain/100` of
region_ex.rs; the oscillator receives the region's sample bounds through
the `View` carried by the region. -/
def Voice.start (v : Voice) (region : Region) (channel key velocity : ℤ) : Voice :=
  let note_gain : ℝ :=
    if 0 < velocity then
      decibels_to_linear (2 * linear_to_decibels ((velocity : ℝ) / 127) -
        0.4 * region.initial_attenuation)
    else 0
  let cutoff := region.initial_filter_cutoff_frequency
  let resonance : ℝ := 1.0
  let mod_lfo_to_volume : ℝ := 0.0
  { v with
    channel := channel, key := key, velocity := velocity
    note_gain := note_gain
    cutoff := cutoff
    resonance := resonance
    vib_lfo_to_pitch := 0.0, mod_lfo_to_pitch := 0.0, mod_env_to_pitch := 0.0
    mod_lfo_to_cutoff := 0, mod_env_to_cutoff := 0, dynamic_cutoff := false
    mod_lfo_to_volume := mod_lfo_to_volume
    dynamic_volume := if (0.05 : ℝ) < mod_lfo_to_volume then true else false
    instrument_pan := 0.0
    instrument_reverb := 0.01 * region.reverb_effects_send
    instrument_chorus := 0.0
    vol_env := VolumeEnvelope.start v.vol_env
      region.delay_volume_envelope
      region.attack_volume_envelope
      region.hold_volume_envelope
      region.decay_volume_envelope
      (decibels_to_linear (-region.sustain_volume_envelope))
      (max region.release_volume_envelope 0.01)
    mod_env := ModulationEnvelope.start v.mod_env
      region.delay_modulation_envelope
      (region.attack_modulation_envelope * (((145 - velocity : ℤ) : ℝ) / 144))
      region.hold_modulation_envelope
      region.decay_modulation_envelope
      (1 - region.sustain_modulation_envelope / 100)
      region.release_modulation_envelope
    vib_lfo := Lfo.start v.vib_lfo region.delay_vibrato_lfo region.frequency_vibrato_lfo
    mod_lfo := Lfo.start v.mod_lfo region.delay_modulation_lfo region.frequency_modulation_lfo
    oscillator := Oscillator.start v.oscillator region.waveData region.sample_modes
      region.sample_sample_rate region.sample_start_loop region.sample_end_loop
      region.root_key region.fine_tune
    filter := BiQuadFilter.set_low_pass_filter (BiQuadFilter.clear_buffer v.filter)
      cutoff resonance
    smoothed_cutoff := cutoff
    voice_state := VoiceState.Playing
    voice_length := 0 }

/-- `Voice::end`. -/
def Voice.end (v : Voice) : Voice :=
  if v.voice_state = VoiceState.Playing then
    { v with voice_state := VoiceState.ReleaseRequested }
  else v

/-- `Voice::kill`. -/
def Voice.kill (v : Voice) : Voice := { v with note_gain := 0 }

/-- `MIN_VOICE_LENGTH = (SAMPLE_RATE / 500) as usize` (= 88 at 44100 Hz). -/
def MIN_VOICE_LENGTH : ℕ := SAMPLE_RATE / 500

/-- `Voice::release_if_necessary` from voice.rs: only here does a voice
enter `Released` and only here are the volume envelope's, modulation
envelope's and oscillator's `release()` invoked. -/
def Voice.release_if_necessary (v : Voice) (channel_info : Channel) : Voice :=
  if v.voice_length < MIN_VOICE_LENGTH then v
  else if v.voice_state = VoiceState.ReleaseRequested ∧
      channel_info.get_hold_pedal = false then
    { v with
      vol_env := v.vol_env.release
      mod_env := v.mod_env.release
      oscillator := v.oscillator.release
      voice_state := VoiceState.Released }
  else v

/-- `Voice::get_priority`: 0 if inaudible, else the volume envelope's stage
priority (voice.rs reads the envelope's priority value; it is the stage
priority of volume_envelope.rs / lib.rs). -/
def Voice.get_priority (v : Voice) : ℝ :=
  if v.note_gain < NON_AUDIBLE then 0 else (v.vol_env.get_priority : ℝ)

/-! ## region_ex.rs -/

/-- `start_volume_envelope` from src/rustysynth/src/region_ex.rs: the hold
duration is scaled by the key-number factor of the hold key-scale generator;
the delay, attack, decay, sustain and (clamped) release are passed directly. -/
def start_volume_envelope (envelope : VolumeEnvelope) (region : Region)
    (key : ℤ) (_velocity : ℤ) : VolumeEnvelope :=
  let delay := region.delay_volume_envelope
  let attack := region.attack_volume_envelope
  let hold := region.hold_volume_envelope *
    key_number_to_multiplying_factor region.key_number_to_volume_envelope_hold key
  let decay := region.decay_volume_envelope
  let sustain := decibels_to_linear (-region.sustain_volume_envelope)
  let release := max region.release_volume_envelope 0.01
  VolumeEnvelope.start envelope delay attack hold decay sustain release

/-- The note-gain formula as the specification words it, with the
`0.5·initial_filter_q` term (for comparison with `Voice.start`). -/
def note_gain_claimed (region : Region) (velocity : ℤ) : ℝ :=
  if 0 < velocity then
    decibels_to_linear (2 * linear_to_decibels ((velocity : ℝ) / 127) -
      0.4 * region.initial_attenuation - 0.5 * region.initial_filter_q)
  else 0

end

/-! ## Claims about Voice::start and region_ex -/

/-- C2 (amended): for every voice start, the note gain is
`decibels_to_linear(2·linear_to_decibels(velocity/127) − 0.4·initial_attenuation)`
for positive velocity and 0 for velocity 0 — the code subtracts only the
attenuation term, not `0.5·initial_filter_q`. -/
theorem voice_start_note_gain (v : Voice) (region : Region) (channel key velocity : ℤ) :
    (Voice.start v region channel key velocity).note_gain =
      if 0 < velocity then
        decibels_to_linear (2 * linear_to_decibels ((velocity : ℝ) / 127) -
          0.4 * region.initial_attenuation)
      else 0 := rfl

/-- C2 counterexample: at velocity 127 on a region with `initial_filter_q = 2`
and zero attenuation, the voice's note gain is `10^0 = 1`, while the
specification's formula gives `10^(−0.05) < 1`. -/
theorem voice_start_note_gain_counterexample :
    (Voice.start Voice.default { regionBase with initial_filter_q := 2 } 0 60 127).note_gain ≠
      note_gain_claimed { regionBase with initial_filter_q := 2 } 127 := by
  have hcode :
      (Voice.start Voice.default { regionBase with initial_filter_q := 2 } 0 60 127).note_gain
        = 1 := by
    show (if (0 : ℤ) < 127 then
        decibels_to_linear (2 * linear_to_decibels ((127 : ℝ) / 127) - 0.4 * 0)
      else 0) = 1
    rw [if_pos (by norm_num)]
    simp [decibels_to_linear, linear_to_decibels]
  have hspec :
      note_gain_claimed { regionBase with initial_filter_q := 2 } 127 < 1 := by
    show (if (0 : ℤ) < 127 then
        decibels_to_linear (2 * linear_to_decibels ((127 : ℝ) / 127) - 0.4 * 0 - 0.5 * 2)
      else 0) < 1
    rw [if_pos (by norm_num)]
    have h0 : (2 : ℝ) * linear_to_decibels ((127 : ℝ) / 127) - 0.4 * 0 - 0.5 * 2 = -1 := by
      norm_num [linear_to_decibels, Real.logb_one]
    rw [h0]
    unfold decibels_to_linear
    exact Real.rpow_lt_one_of_one_lt_of_neg (by norm_num) (by norm_num)
  rw [hcode]
  exact ne_of_gt hspec

lemma renderStep_fields (e : VolumeEnvelope) :
    (e.renderStep.1).attack_start_time = e.attack_start_time ∧
    (e.renderStep.1).hold_start_time = e.hold_start_time ∧
    (e.renderStep.1).decay_start_time = e.decay_start_time ∧
    (e.renderStep.1).decay_slope = e.decay_slope ∧
    (e.renderStep.1).attack_slope = e.attack_slope ∧
    (e.renderStep.1).release_slope = e.release_slope := by
  unfold VolumeEnvelope.renderStep
  rcases advanceStage e.stage e.current_time e.attack_start_time e.hold_start_time
    e.decay_start_time <;> simp

/-- C3 (amended): `start_volume_envelope` scales the volume envelope's hold
duration by `timecents_to_seconds(key_scale_cents·(60−key))` of the
key-number-to-volume-envelope-hold generator (the hold duration is the gap
between the decay start and the hold start), while the decay duration is
passed to the envelope unscaled (its stored slope is `−9.226/decay` of the
region's raw decay seconds). -/
theorem start_volume_envelope_hold_decay (envelope : VolumeEnvelope)
    (region : Region) (key velocity : ℤ) :
    (start_volume_envelope envelope region key velocity).decay_start_time -
        (start_volume_envelope envelope region key velocity).hold_start_time =
      region.hold_volume_envelope *
        key_number_to_multiplying_factor region.key_number_to_volume_envelope_hold key ∧
    (start_volume_envelope envelope region key velocity).decay_slope =
      -9.226 / region.decay_volume_envelope := by
  unfold start_volume_envelope VolumeEnvelope.start
  obtain ⟨h1, h2, h3, h4, h5, h6⟩ := renderStep_fields
    { attack_slope := 1 / region.attack_volume_envelope
      decay_slope := -9.226 / region.decay_volume_envelope
      release_slope := -9.226 / max region.release_volume_envelope 0.01
      attack_start_time := region.delay_volume_envelope
      hold_start_time := region.delay_volume_envelope + region.attack_volume_envelope
      decay_start_time := region.delay_volume_envelope + region.attack_volume_envelope +
        region.hold_volume_envelope *
          key_number_to_multiplying_factor region.key_number_to_volume_envelope_hold key
      release_start_time := 0
      sustain_level := min (max (decibels_to_linear (-region.sustain_volume_envelope)) 0) 1
      release_level := 0
      stage := EnvelopeStage.DELAY
      value := 0
      current_time := 0 }
  constructor
  · rw [h2, h3]
    ring
  · rw [h4]

/-- C3 counterexample: on a region with decay 1 s, decay key-scale generator
1200 and key 59, the claim's decay scaling would store a decay slope of
`−9.226/2`, but `start_volume_envelope` stores `−9.226/1`. -/
theorem start_volume_envelope_decay_not_scaled :
    ¬ ((start_volume_envelope VolumeEnvelope.default
          { regionBase with
              decay_volume_envelope := 1
              key_number_to_volume_envelope_decay := 1200 } 59 100).decay_slope =
        -9.226 / ((1 : ℝ) *
          key_number_to_multiplying_factor 1200 59)) := by
  have hcode : (start_volume_envelope VolumeEnvelope.default
      { regionBase with
          decay_volume_envelope := 1
          key_number_to_volume_envelope_decay := 1200 } 59 100).decay_slope
      = -9.226 / 1 := by
    unfold start_volume_envelope VolumeEnvelope.start
    rw [(renderStep_fields _).2.2.2.1]
  have hfac : key_number_to_multiplying_factor 1200 59 = 2 := by
    unfold key_number_to_multiplying_factor timecents_to_seconds
    norm_num
  rw [hcode, hfac]
  norm_num

/-- C5: while a channel's hold pedal is down, `release_if_necessary` — the
only code that moves a voice to `Released` and the only caller of the
volume envelope's, modulation envelope's and oscillator's `release()` —
leaves the voice untouched; `Voice::end` (the note-off and CC-123 path)
never yields `Released` and touches no envelope; a value ≥ 64 on CC 64 holds
the pedal and a value < 64 clears it; and once the pedal is clear, a
`ReleaseRequested` voice whose length has reached `SAMPLE_RATE/500` samples
is released (envelopes and oscillator released, state `Released`). -/
theorem hold_pedal_blocks_release (v : Voice) (ch : Channel) (x : ℕ) :
    (64 ≤ x → (ch.set_hold_pedal x).hold_pedal = true) ∧
    (x < 64 → (ch.set_hold_pedal x).hold_pedal = false) ∧
    (ch.get_hold_pedal = true → v.release_if_necessary ch = v) ∧
    (v.voice_state ≠ VoiceState.Released →
      (Voice.end v).voice_state ≠ VoiceState.Released) ∧
    ((Voice.end v).vol_env = v.vol_env ∧ (Voice.end v).mod_env = v.mod_env ∧
      (Voice.end v).oscillator = v.oscillator) ∧
    (ch.get_hold_pedal = false → v.voice_state = VoiceState.ReleaseRequested →
      MIN_VOICE_LENGTH ≤ v.voice_length →
      v.release_if_necessary ch =
        { v with
          vol_env := v.vol_env.release
          mod_env := v.mod_env.release
          oscillator := v.oscillator.release
          voice_state := VoiceState.Released }) := by
  refine ⟨?_, ?_, ?_, ?_, ?_, ?_⟩
  · intro h
    simp [Channel.set_hold_pedal, h]
  · intro h
    simp [Channel.set_hold_pedal]
    omega
  · intro h
    unfold Voice.release_if_necessary
    by_cases h1 : v.voice_length < MIN_VOICE_LENGTH
    · simp [h1]
    · simp [h1, Channel.get_hold_pedal] at h ⊢
      intro _ h2
      rw [h] at h2
      cases h2
  · intro h
    unfold Voice.end
    by_cases h1 : v.voice_state = VoiceState.Playing
    · simp [h1]
    · simpa [h1] using h
  · unfold Voice.end
    by_cases h1 : v.voice_state = VoiceState.Playing <;> simp [h1]
  · intro hped hreq hlen
    unfold Voice.release_if_necessary
    rw [if_neg (by omega)]
    rw [if_pos ⟨hreq, by simpa [Channel.get_hold_pedal] using hped⟩]

/-- Witness for `hold_pedal_blocks_release`: a 100-sample `ReleaseRequested`
voice is untouched while the pedal is held and released once it is clear;
CC 64 value 64 holds the pedal. -/
theorem hold_pedal_blocks_release_witness :
    ({ Voice.default with
        voice_state := VoiceState.ReleaseRequested
        voice_length := 100 } : Voice).release_if_necessary
      { Channel.default with hold_pedal := true } =
      { Voice.default with
        voice_state := VoiceState.ReleaseRequested
        voice_length := 100 } ∧
    (Channel.default.set_hold_pedal 64).hold_pedal = true ∧
    ({ Voice.default with
        voice_state := VoiceState.ReleaseRequested
        voice_length := 100 } : Voice).release_if_necessary Channel.default =
      { Voice.default with
        vol_env := Voice.default.vol_env.release
        mod_env := Voice.default.mod_env.release
        oscillator := Voice.default.oscillator.release
        voice_state := VoiceState.Released
        voice_length := 100 } :=
  ⟨(hold_pedal_blocks_release
      { Voice.default with
        voice_state := VoiceState.ReleaseRequested
        voice_length := 100 }
      { Channel.default with hold_pedal := true } 64).2.2.1 rfl,
   (hold_pedal_blocks_release Voice.default Channel.default 64).1 (by decide),
   (hold_pedal_blocks_release
      { Voice.default with
        voice_state := VoiceState.ReleaseRequested
        voice_length := 100 }
      Channel.default 64).2.2.2.2.2 rfl rfl (by decide)⟩

/-! ## VoiceCollection (src/rustysynth/src/voice_collection.rs) -/

noncomputable section

structure VoiceCollection where
  voices : List Voice
  active_voice_count : ℕ

/-- `f32::MAX`, the initial value of `lowest_priority` in `request_new`. -/
def F32_MAX : ℝ := 340282346638528859811704183484516925440

/-- The candidate-selection loop of `VoiceCollection::request_new`:
scan the active indices keeping the index of the lowest-priority voice,
preferring on equal priority the voice with the larger `voice_length`. -/
def stealGo (voices : List Voice) : List ℕ → ℕ → ℝ → ℕ
  | [], candidate, _ => candidate
  | i :: rest, candidate, lowest =>
    let priority := (voices.getD i Voice.default).get_priority
    if priority < lowest then stealGo voices rest i priority
    else if priority = lowest ∧
        (voices.getD candidate Voice.default).voice_length <
          (voices.getD i Voice.default).voice_length then
      stealGo voices rest i lowest
    else stealGo voices rest candidate lowest

/-- `VoiceCollection::request_new`, returning the index of the granted slot
together with the updated collection (the slot itself is reinitialized by
the caller's subsequent `start`). -/
def VoiceCollection.request_new (vc : VoiceCollection) : ℕ × VoiceCollection :=
  if vc.active_voice_count < vc.voices.length then
    (vc.active_voice_count, { vc with active_voice_count := vc.active_voice_count + 1 })
  else
    (stealGo vc.voices (List.range vc.active_voice_count) 0 F32_MAX, vc)

end

lemma get_priority_lt_f32max (v : Voice) : v.get_priority < F32_MAX := by
  unfold Voice.get_priority F32_MAX
  by_cases h : v.note_gain < NON_AUDIBLE
  · rw [if_pos h]
    norm_num
  · rw [if_neg h]
    have h5 : v.vol_env.get_priority ≤ 5 := by
      unfold VolumeEnvelope.get_priority EnvelopeStage.get_priority
      rcases v.vol_env.stage <;> norm_num
    calc ((v.vol_env.get_priority : ℕ) : ℝ) ≤ 5 := by exact_mod_cast h5
      _ < _ := by norm_num

/-- Invariant proof for the steal loop: starting from candidate `cand` with
`lowest` equal to `cand`'s priority, the loop returns an index whose
priority is a lower bound of the candidate's and of every scanned index's
priority, whose length dominates every equal-priority scanned index (and the
candidate), and which is either the candidate or a scanned index. -/
lemma stealGo_spec (voices : List Voice) (idxs : List ℕ) :
    ∀ cand : ℕ,
    (voices.getD (stealGo voices idxs cand
        ((voices.getD cand Voice.default).get_priority)) Voice.default).get_priority ≤
      (voices.getD cand Voice.default).get_priority ∧
    (∀ i ∈ idxs,
      (voices.getD (stealGo voices idxs cand
          ((voices.getD cand Voice.default).get_priority)) Voice.default).get_priority ≤
        (voices.getD i Voice.default).get_priority) ∧
    ((voices.getD cand Voice.default).get_priority =
        (voices.getD (stealGo voices idxs cand
          ((voices.getD cand Voice.default).get_priority)) Voice.default).get_priority →
      (voices.getD cand Voice.default).voice_length ≤
        (voices.getD (stealGo voices idxs cand
          ((voices.getD cand Voice.default).get_priority)) Voice.default).voice_length) ∧
    (∀ i ∈ idxs,
      (voices.getD i Voice.default).get_priority =
        (voices.getD (stealGo voices idxs cand
          ((voices.getD cand Voice.default).get_priority)) Voice.default).get_priority →
      (voices.getD i Voice.default).voice_length ≤
        (voices.getD (stealGo voices idxs cand
          ((voices.getD cand Voice.default).get_priority)) Voice.default).voice_length) ∧
    (stealGo voices idxs cand ((voices.getD cand Voice.default).get_priority) = cand ∨
      stealGo voices idxs cand ((voices.getD cand Voice.default).get_priority) ∈ idxs) := by
  induction idxs with
  | nil =>
    intro cand
    exact ⟨le_refl _, by simp, fun _ => le_refl _, by simp, Or.inl rfl⟩
  | cons i rest ih =>
    intro cand
    by_cases hlt : (voices.getD i Voice.default).get_priority <
        (voices.getD cand Voice.default).get_priority
    · have hred : stealGo voices (i :: rest) cand
          ((voices.getD cand Voice.default).get_priority) =
          stealGo voices rest i ((voices.getD i Voice.default).get_priority) := by
        simp only [stealGo]
        rw [if_pos hlt]
      obtain ⟨ih1, ih2, ih3, ih4, ih5⟩ := ih i
      rw [hred]
      refine ⟨le_of_lt (lt_of_le_of_lt ih1 hlt), ?_, ?_, ?_, ?_⟩
      · intro j hj
        rcases List.mem_cons.mp hj with hj | hj
        · exact hj ▸ ih1
        · exact ih2 j hj
      · intro hceq
        exact absurd (hceq ▸ lt_of_le_of_lt ih1 hlt) (lt_irrefl _)
      · intro j hj
        rcases List.mem_cons.mp hj with hj | hj
        · subst hj
          exact ih3
        · exact ih4 j hj
      · rcases ih5 with h | h
        · exact Or.inr (by rw [h]; exact List.mem_cons_self i rest)
        · exact Or.inr (List.mem_cons_of_mem i h)
    · by_cases heq : (voices.getD i Voice.default).get_priority =
          (voices.getD cand Voice.default).get_priority ∧
          (voices.getD cand Voice.default).voice_length <
            (voices.getD i Voice.default).voice_length
      · have hred : stealGo voices (i :: rest) cand
            ((voices.getD cand Voice.default).get_priority) =
            stealGo voices rest i ((voices.getD i Voice.default).get_priority) := by
          simp only [stealGo]
          rw [if_neg hlt, if_pos heq, heq.1]
        obtain ⟨ih1, ih2, ih3, ih4, ih5⟩ := ih i
        rw [hred]
        refine ⟨heq.1 ▸ ih1, ?_, ?_, ?_, ?_⟩
        · intro j hj
          rcases List.mem_cons.mp hj with hj | hj
          · exact hj ▸ ih1
          · exact ih2 j hj
        · intro hceq
          have : (voices.getD i Voice.default).get_priority =
              (voices.getD (stealGo voices rest i
                ((voices.getD i Voice.default).get_priority)) Voice.default).get_priority :=
            heq.1.symm ▸ hceq
          exact le_of_lt (lt_of_lt_of_le heq.2 (ih3 this))
        · intro j hj
          rcases List.mem_cons.mp hj with hj | hj
          · subst hj
            exact ih3
          · exact ih4 j hj
        · rcases ih5 with h | h
          · exact Or.inr (by rw [h]; exact List.mem_cons_self i rest)
          · exact Or.inr (List.mem_cons_of_mem i h)
      · have hred : stealGo voices (i :: rest) cand
            ((voices.getD cand Voice.default).get_priority) =
            stealGo voices rest cand ((voices.getD cand Voice.default).get_priority) := by
          simp only [stealGo]
          rw [if_neg hlt, if_neg heq]
        obtain ⟨ih1, ih2, ih3, ih4, ih5⟩ := ih cand
        rw [hred]
        have hle : (voices.getD cand Voice.default).get_priority ≤
            (voices.getD i Voice.default).get_priority := le_of_not_lt hlt
        refine ⟨ih1, ?_, ih3, ?_, ?_⟩
        · intro j hj
          rcases List.mem_cons.mp hj with hj | hj
          · exact hj ▸ le_trans ih1 hle
          · exact ih2 j hj
        · intro j hj
          rcases List.mem_cons.mp hj with hj | hj
          · subst hj
            intro hjeq
            have hieq : (voices.getD j Voice.default).get_priority =
                (voices.getD cand Voice.default).get_priority :=
              le_antisymm (hjeq ▸ ih1) hle
            have hlen : (voices.getD j Voice.default).voice_length ≤
                (voices.getD cand Voice.default).voice_length := by
              by_contra hcon
              exact heq ⟨hieq, by omega⟩
            exact le_trans hlen (ih3 (hieq ▸ hjeq))
          · exact ih4 j hj
        · rcases ih5 with h | h
          · exact Or.inl h
          · exact Or.inr (List.mem_cons_of_mem i h)

/-- C4: `VoiceCollection::request_new` grants the slot at `active_count` and
increments `active_count` while the pool is not full; on a full pool it
returns an active slot whose priority is minimal, breaking ties among
equal-lowest-priority voices towards the largest `voice_length`, and leaves
the collection (in particular `active_count`) unchanged. -/
theorem voice_pool_allocation (vc : VoiceCollection) :
    (vc.active_voice_count < vc.voices.length →
      vc.request_new.1 = vc.active_voice_count ∧
      vc.request_new.2.active_voice_count = vc.active_voice_count + 1 ∧
      vc.request_new.2.voices = vc.voices) ∧
    (vc.active_voice_count = vc.voices.length → 0 < vc.voices.length →
      vc.request_new.1 < vc.voices.length ∧
      (∀ i < vc.voices.length,
        (vc.voices.getD vc.request_new.1 Voice.default).get_priority ≤
          (vc.voices.getD i Voice.default).get_priority) ∧
      (∀ i < vc.voices.length,
        (vc.voices.getD i Voice.default).get_priority =
          (vc.voices.getD vc.request_new.1 Voice.default).get_priority →
        (vc.voices.getD i Voice.default).voice_length ≤
          (vc.voices.getD vc.request_new.1 Voice.default).voice_length) ∧
      vc.request_new.2 = vc) := by
  constructor
  · intro h
    unfold VoiceCollection.request_new
    rw [if_pos h]
    exact ⟨rfl, rfl, rfl⟩
  · intro hfull hpos
    have hnotlt : ¬ vc.active_voice_count < vc.voices.length := by omega
    have hreq : vc.request_new =
        (stealGo vc.voices (List.range vc.active_voice_count) 0 F32_MAX, vc) := by
      unfold VoiceCollection.request_new
      rw [if_neg hnotlt]
    obtain ⟨m, hm⟩ : ∃ m, vc.active_voice_count = m + 1 := by
      refine ⟨vc.voices.length - 1, by omega⟩
    have hrange : List.range vc.active_voice_count =
        0 :: List.map Nat.succ (List.range m) := by
      rw [hm, List.range_succ_eq_map]
    have hfirst : stealGo vc.voices (List.range vc.active_voice_count) 0 F32_MAX =
        stealGo vc.voices (List.map Nat.succ (List.range m)) 0
          ((vc.voices.getD 0 Voice.default).get_priority) := by
      rw [hrange]
      simp only [stealGo]
      rw [if_pos (get_priority_lt_f32max _)]
    obtain ⟨s1, s2, s3, s4, s5⟩ := stealGo_spec vc.voices (List.map Nat.succ (List.range m)) 0
    set r := stealGo vc.voices (List.map Nat.succ (List.range m)) 0
      ((vc.voices.getD 0 Voice.default).get_priority) with hr
    have hmem : ∀ i, i < vc.voices.length → i = 0 ∨ i ∈ List.map Nat.succ (List.range m) := by
      intro i hi
      rcases Nat.eq_zero_or_pos i with h0 | hip
      · exact Or.inl h0
      · refine Or.inr ?_
        simp only [List.mem_map, List.mem_range]
        exact ⟨i - 1, by omega, by omega⟩
    have hrlt : r < vc.voices.length := by
      rcases s5 with h | h
      · omega
      · simp only [List.mem_map, List.mem_range] at h
        obtain ⟨j, hj, hji⟩ := h
        omega
    rw [hreq]
    refine ⟨by simpa [hfirst] using hrlt, ?_, ?_, rfl⟩
    · intro i hi
      simp only [hfirst]
      rcases hmem i hi with h0 | hmm
      · exact h0 ▸ s1
      · exact s2 i hmm
    · intro i hi
      simp only [hfirst]
      rcases hmem i hi with h0 | hmm
      · intro he
        exact h0 ▸ s3 (h0 ▸ he)
      · exact s4 i hmm

/-- Witness for `voice_pool_allocation`: a pool of three default voices with
two active grants slot 2 and raises the count to 3; the same pool with all
three active steals a slot without changing the count. -/
theorem voice_pool_allocation_witness :
    (2 : ℕ) < 3 ∧
    (VoiceCollection.request_new ⟨[Voice.default, Voice.default, Voice.default], 2⟩).1 = 2 ∧
    (VoiceCollection.request_new ⟨[Voice.default, Voice.default, Voice.default], 2⟩).2.active_voice_count = 3 ∧
    (VoiceCollection.request_new ⟨[Voice.default, Voice.default, Voice.default], 3⟩).1 < 3 ∧
    (VoiceCollection.request_new ⟨[Voice.default, Voice.default, Voice.default], 3⟩).2 =
      ⟨[Voice.default, Voice.default, Voice.default], 3⟩ := by
  obtain ⟨h1, h2, _⟩ :=
    (voice_pool_allocation ⟨[Voice.default, Voice.default, Voice.default], 2⟩).1
      (by simp)
  obtain ⟨g1, _, _, g4⟩ :=
    (voice_pool_allocation ⟨[Voice.default, Voice.default, Voice.default], 3⟩).2
      (by simp) (by simp)
  exact ⟨by norm_num, h1, h2, by simpa using g1, g4⟩

/-! ## Claim about Oscillator::render in non-looping mode -/

lemma get?_eq_some_getD (l : List ℤ) (n : ℕ) (h : n < l.length) :
    l.get? n = some (l.getD n 0) := by
  rw [List.get?_eq_getElem?, List.getElem?_eq_getElem h, List.getD_eq_getElem l 0 h]

lemma get?_eq_none_of_le (l : List ℤ) (n : ℕ) (h : l.length ≤ n) : l.get? n = none := by
  rw [List.get?_eq_getElem?]
  exact List.getElem?_eq_none h

/-- C10: in non-looping mode, with a nonnegative position whose integer part
is `idx`, `Oscillator::render` (i) returns `None` exactly when `idx` has
reached the region (view) length; (ii) otherwise, as long as the pool extends
past `start+idx+1`, it linearly interpolates the pool samples at `start+idx`
and `start+idx+1` — for `idx = len−1` the second index is `end`, one sample
past the region's end, served from the shared pool because `View`'s indexing
is bounded only by the pool; (iii) and when the region's end coincides with
the pool's end, rendering at the last in-region sample panics. -/
theorem oscillator_render_no_loop (osc : Oscillator) (dv : View) (pitch : ℝ) (idx : ℕ)
    (hdata : osc.data = some dv) (hloop : osc.looping = false)
    (hpos : 0 ≤ osc.position_fp) (hse : dv.start ≤ dv.end_)
    (hidx : (idx : ℤ) = Int.fdiv osc.position_fp FRAC_UNIT) :
    (osc.render pitch = OscRender.finished ↔ viewLen dv ≤ idx) ∧
    (idx < viewLen dv → dv.start + idx + 1 < dv.data.length →
      osc.render pitch = OscRender.sample
        (FP_TO_SAMPLE * ((dv.data.getD (dv.start + idx) 0 * FRAC_UNIT +
          osc.position_fp % FRAC_UNIT *
            (dv.data.getD (dv.start + idx + 1) 0 - dv.data.getD (dv.start + idx) 0) : ℤ) : ℝ))
        { osc with position_fp := osc.position_fp +
            ⌊(FRAC_UNIT : ℝ) * (osc.rate_scale *
              (2 : ℝ) ^ ((pitch - (osc.root_key : ℝ) + osc.tune) / 12))⌋ }) ∧
    (idx + 1 = viewLen dv → dv.data.length = dv.end_ →
      osc.render pitch = OscRender.panicked) := by
  have htn : (Int.fdiv osc.position_fp FRAC_UNIT).toNat = idx := by
    rw [← hidx]
    exact Int.toNat_natCast idx
  have hred : osc.render pitch =
      (if Int.fdiv osc.position_fp FRAC_UNIT < 0 ∨
          (viewLen dv : ℤ) ≤ Int.fdiv osc.position_fp FRAC_UNIT
        then OscRender.finished
        else
          match viewIndex? dv idx, viewIndex? dv (idx + 1) with
          | some x1, some x2 =>
            OscRender.sample
              (FP_TO_SAMPLE * ((x1 * FRAC_UNIT +
                osc.position_fp % FRAC_UNIT * (x2 - x1) : ℤ) : ℝ))
              { osc with position_fp := osc.position_fp +
                  ⌊(FRAC_UNIT : ℝ) * (osc.rate_scale *
                    (2 : ℝ) ^ ((pitch - (osc.root_key : ℝ) + osc.tune) / 12))⌋ }
          | _, _ => OscRender.panicked) := by
    rw [Oscillator.render, hdata]
    simp only [hloop, Bool.false_eq_true, if_false, htn]
  have hnneg : ¬ Int.fdiv osc.position_fp FRAC_UNIT < 0 := by
    have := Int.fdiv_nonneg hpos (by norm_num [FRAC_UNIT, FRAC_BITS] : (0 : ℤ) ≤ FRAC_UNIT)
    omega
  have hle_iff : (viewLen dv : ℤ) ≤ Int.fdiv osc.position_fp FRAC_UNIT ↔ viewLen dv ≤ idx := by
    rw [← hidx]
    exact_mod_cast Int.ofNat_le
  refine ⟨?_, ?_, ?_⟩
  · constructor
    · intro h
      by_contra hcon
      rw [hred, if_neg (by rw [hle_iff]; tauto)] at h
      rcases hx1 : viewIndex? dv idx with _ | x1 <;>
        rcases hx2 : viewIndex? dv (idx + 1) with _ | x2 <;>
        simp [hx1, hx2] at h
    · intro h
      rw [hred, if_pos (Or.inr (hle_iff.mpr h))]
  · intro hlt hbound
    have hx1 : viewIndex? dv idx = some (dv.data.getD (dv.start + idx) 0) := by
      unfold viewIndex?
      exact get?_eq_some_getD _ _ (by omega)
    have hx2 : viewIndex? dv (idx + 1) = some (dv.data.getD (dv.start + idx + 1) 0) := by
      unfold viewIndex?
      rw [show dv.start + (idx + 1) = dv.start + idx + 1 by ring]
      exact get?_eq_some_getD _ _ hbound
    rw [hred, if_neg (by rw [hle_iff]; omega), hx1, hx2]
  · intro hlast hpool
    have hlenpos : 0 < viewLen dv := by omega
    have hx1 : viewIndex? dv idx = some (dv.data.getD (dv.start + idx) 0) := by
      unfold viewIndex?
      refine get?_eq_some_getD _ _ ?_
      unfold viewLen at hlast
      omega
    have hx2 : viewIndex? dv (idx + 1) = none := by
      unfold viewIndex?
      refine get?_eq_none_of_le _ _ ?_
      unfold viewLen at hlast
      omega
    rw [hred, if_neg (by rw [hle_iff]; omega), hx1, hx2]

/-- Witness for `oscillator_render_no_loop`: on a three-sample pool viewed in
full, position `2<<24` is the last in-region sample and rendering panics. -/
theorem oscillator_render_no_loop_witness :
    (Oscillator.render
      { Oscillator.default with
          data := some ⟨[10, 20, 30], 0, 3⟩
          position_fp := 2 * FRAC_UNIT } 60 = OscRender.panicked) ∧
    (Oscillator.render
      { Oscillator.default with
          data := some ⟨[10, 20, 30], 0, 3⟩
          position_fp := 3 * FRAC_UNIT } 60 = OscRender.finished) := by
  constructor
  · exact (oscillator_render_no_loop
      { Oscillator.default with
          data := some ⟨[10, 20, 30], 0, 3⟩
          position_fp := 2 * FRAC_UNIT } ⟨[10, 20, 30], 0, 3⟩ 60 2
      rfl rfl (by norm_num [FRAC_UNIT, FRAC_BITS]) (by norm_num)
      (by decide)).2.2 (by norm_num [viewLen]) rfl
  · exact ((oscillator_render_no_loop
      { Oscillator.default with
          data := some ⟨[10, 20, 30], 0, 3⟩
          position_fp := 3 * FRAC_UNIT } ⟨[10, 20, 30], 0, 3⟩ 60 3
      rfl rfl (by norm_num [FRAC_UNIT, FRAC_BITS]) (by norm_num)
      (by decide)).1).mpr (by norm_num [viewLen])

/-! ## SoundFontProc (src/rustysynth-soundfont/src/lib.rs) and the
Synthesizer's note dispatch (src/rustysynth/src/synthesizer.rs)

The byte-level SF2 structures (preset_region.rs, instrument_region.rs,
generator arrays) are not part of the source tree; a preset region and an
instrument region are modelled by their key/velocity rectangles (the
`contains` test is modelled from the spec), and the `Sound` accessor values
that region_pair.rs would compute for a matched pair are carried as a
precomputed `Region` payload on the instrument region. -/

noncomputable section

/-- Modelled from the spec: a preset region's key/velocity rectangle and the
index of its linked instrument (`preset_region.rs` is not in the tree; the
spec defines: a region contains `(k,v)` when `k∈[key_lo,key_hi]` and
`v∈[velocity_lo,velocity_hi]`). -/
structure PresetRegion where
  key_lo : ℤ
  key_hi : ℤ
  velocity_lo : ℤ
  velocity_hi : ℤ
  instrument : ℕ

/-- Modelled from the spec: an instrument region's rectangle, its absolute
sample bounds, and the effective `Sound` values for a pair built on it. -/
structure InstrumentRegion where
  key_lo : ℤ
  key_hi : ℤ
  velocity_lo : ℤ
  velocity_hi : ℤ
  sample_start : ℤ
  sample_end : ℤ
  sound : Region

structure Instrument where
  regions : List InstrumentRegion

structure Preset where
  bank_number : ℕ
  patch_number : ℕ
  regions : List PresetRegion

/-- Modelled from the spec: `k∈[key_lo,key_hi] ∧ v∈[velocity_lo,velocity_hi]`. -/
def PresetRegion.contains (r : PresetRegion) (key velocity : ℤ) : Bool :=
  r.key_lo ≤ key ∧ key ≤ r.key_hi ∧ r.velocity_lo ≤ velocity ∧ velocity ≤ r.velocity_hi

/-- Modelled from the spec: `k∈[key_lo,key_hi] ∧ v∈[velocity_lo,velocity_hi]`. -/
def InstrumentRegion.contains (r : InstrumentRegion) (key velocity : ℤ) : Bool :=
  r.key_lo ≤ key ∧ key ≤ r.key_hi ∧ r.velocity_lo ≤ velocity ∧ velocity ≤ r.velocity_hi

def presetId (p : Preset) : ℕ := (p.bank_number <<< 16) ||| p.patch_number

/-- The `preset_lookup` HashMap built by `SoundFontProc::new`: of presets
sharing an id the last inserted wins. -/
def presetLookupFind (presets : List Preset) (pid : ℕ) : Option ℕ :=
  presets.enum.foldl
    (fun acc p => if presetId p.2 = pid then some p.1 else acc) none

/-- The `default_preset` computed by `SoundFontProc::new`: the first index
attaining the minimal preset id (`min_preset_id` starts at `i32::MAX`). -/
def defaultPresetIdx (presets : List Preset) : ℕ :=
  (presets.enum.foldl
    (fun best p =>
      if presetId p.2 < best.2 then (p.1, presetId p.2) else best)
    (0, 2147483647)).1

structure SoundFontProc where
  presets : List Preset
  instruments : List Instrument
  default_preset : ℕ
  wave_data : List ℤ

/-- `SoundFontProc::new`. -/
def SoundFontProc.new (presets : List Preset) (instruments : List Instrument)
    (wave_data : List ℤ) : SoundFontProc :=
  { presets := presets
    instruments := instruments
    default_preset := defaultPresetIdx presets
    wave_data := wave_data }

/-- `SoundFontProc::get_regions`: resolve the preset by id, falling back to
the GM set (`patch` for banks < 128, `128:0` for drum banks) and finally the
default preset, then return the first (preset-region, instrument-region)
pair whose rectangles contain `(key, velocity)` — as the `Region` payload
with the wave-data `View` built from the instrument region's sample bounds.
`none` is the `Err` ("no regions found") case. -/
def SoundFontProc.get_regions (sf : SoundFontProc) (bank_id patch_id : ℕ)
    (key velocity : ℤ) : Option Region :=
  let preset_id := (bank_id <<< 16) ||| patch_id
  let preset : ℕ :=
    match presetLookupFind sf.presets preset_id with
    | some v => v
    | none =>
      let gm_preset_id := if bank_id < 128 then patch_id else 128 <<< 16
      match presetLookupFind sf.presets gm_preset_id with
      | some v => v
      | none => sf.default_preset
  let preset := sf.presets.getD preset ⟨0, 0, []⟩
  preset.regions.findSome? (fun pr =>
    if pr.contains key velocity then
      let instrument := sf.instruments.getD pr.instrument ⟨[]⟩
      instrument.regions.findSome? (fun ir =>
        if ir.contains key velocity then
          some { ir.sound with
            waveData := ⟨sf.wave_data, ir.sample_start.toNat, ir.sample_end.toNat⟩ }
        else none)
    else none)

/-- Modelled from the spec: `get_bank_number` is called by synthesizer.rs but
not defined in channel.rs; the 14-bit `preset_id` stores the bank in its
coarse (MSB) 7 bits. -/
def Channel.get_bank_number (ch : Channel) : ℕ := ch.preset_id >>> 7

/-- Modelled from the spec: the patch is the fine (LSB) 7 bits of `preset_id`. -/
def Channel.get_patch_number (ch : Channel) : ℕ := ch.preset_id &&& 0x7F

/-- The synthesizer state `note_on`/`note_off` act on: the sound source, the
16 channels, and the voice pool. -/
structure Synthesizer where
  sound_font : SoundFontProc
  channels : List Channel
  voices : VoiceCollection

/-- `Synthesizer::note_off`: mark every active voice with matching channel
and key `ReleaseRequested`. -/
def Synthesizer.note_off (s : Synthesizer) (channel key : ℤ) : Synthesizer :=
  let newVoices := s.voices.voices.mapIdx (fun i v =>
    if i < s.voices.active_voice_count ∧ v.channel = channel ∧ v.key = key then
      Voice.end v
    else v)
  { s with voices := { s.voices with voices := newVoices } }

/-- `Synthesizer::note_on`: zero velocity behaves as note-off; otherwise
look the region pair up with the channel's bank and patch, and only when the
lookup succeeds allocate a slot (`request_new`) and start it.  A lookup miss
falls through with no state change and surfaces no error (the function is
total into `Synthesizer`). -/
def Synthesizer.note_on (s : Synthesizer) (channel key velocity : ℤ) : Synthesizer :=
  if velocity = 0 then s.note_off channel key
  else
    let channel_info := s.channels.getD channel.toNat Channel.default
    match s.sound_font.get_regions channel_info.get_bank_number
        channel_info.get_patch_number key velocity with
    | none => s
    | some region_pair =>
      let rn := s.voices.request_new
      let started := (rn.2.voices.getD rn.1 Voice.default).start region_pair channel key velocity
      { s with voices := { rn.2 with voices := rn.2.voices.set rn.1 started } }

end

/-- C6: a `note_on` with positive velocity whose region lookup misses (no
preset/instrument region pair matches the channel's bank and patch and the
given key and velocity) is a no-op: the synthesizer state — voice pool,
`active_count`, channels — is exactly unchanged, so any rendering performed
afterwards equals rendering without the call, and no error reaches the
caller. -/
theorem note_on_lookup_miss_noop (s : Synthesizer) (channel key velocity : ℤ)
    (hvel : 0 < velocity)
    (hmiss : s.sound_font.get_regions
      (s.channels.getD channel.toNat Channel.default).get_bank_number
      (s.channels.getD channel.toNat Channel.default).get_patch_number key velocity
        = none) :
    s.note_on channel key velocity = s ∧
    (s.note_on channel key velocity).voices.active_voice_count =
      s.voices.active_voice_count ∧
    (s.note_on channel key velocity).channels = s.channels := by
  have h : s.note_on channel key velocity = s := by
    unfold Synthesizer.note_on
    rw [if_neg (by omega)]
    simp only [hmiss]
  exact ⟨h, by rw [h], by rw [h]⟩

/-- A soundfont with a single preset `(0,0)` whose only preset region is an
empty rectangle, and a synthesizer on it with one free voice slot. -/
def sfNoMatch : SoundFontProc :=
  SoundFontProc.new [⟨0, 0, [⟨0, -1, 0, -1, 0⟩]⟩] [⟨[]⟩] []

def synthNoMatch : Synthesizer :=
  ⟨sfNoMatch, [Channel.default], ⟨[Voice.default], 0⟩⟩

/-- Witness for `note_on_lookup_miss_noop`: `note_on(0, 60, 100)` on the
no-match soundfont leaves the synthesizer unchanged. -/
theorem note_on_lookup_miss_noop_witness :
    Synthesizer.note_on synthNoMatch 0 60 100 = synthNoMatch ∧
    (Synthesizer.note_on synthNoMatch 0 60 100).voices.active_voice_count = 0 :=
  ⟨(note_on_lookup_miss_noop synthNoMatch 0 60 100 (by norm_num) rfl).1,
   by rw [(note_on_lookup_miss_noop synthNoMatch 0 60 100 (by norm_num) rfl).1]; rfl⟩

end RustySynth
